import Mathlib

/-!
Verification of the zombiotrack simulation engine
(`src/zombiotrack/use_cases/zombie_simulation.py` and the entity model under
`src/zombiotrack/models/`).

Python dictionaries are embedded as association lists that keep insertion
order: lookup returns the first binding of a key, assignment replaces the
value of an existing key in place and otherwise appends a new binding at the
end, exactly like `dict.__getitem__` / `dict.__setitem__`.  Fallible Python
code (KeyError, AssertionError, AttributeError, TypeError, ValueError) is
embedded in `Except String`, the message recording which exception is raised.
Machine integers are `Int` (Python ints are unbounded).  `deepcopy` is the
identity on our immutable values.
-/

namespace Zombiotrack

/-- Python dict lookup (`d[k]` via `.get`): first binding of the key, if any. -/
def dictLookup {α β : Type} [DecidableEq α] : List (α × β) → α → Option β
  | [], _ => none
  | (k, v) :: rest, key => if k = key then some v else dictLookup rest key

/-- Python `k in d`. -/
def dictContains {α β : Type} [DecidableEq α] (d : List (α × β)) (key : α) : Bool :=
  (dictLookup d key).isSome

/-- Python `d[k] = v`: replace the value of an existing binding in place,
otherwise append a new binding at the end. -/
def dictSet {α β : Type} [DecidableEq α] : List (α × β) → α → β → List (α × β)
  | [], key, val => [(key, val)]
  | (k, v) :: rest, key, val =>
      if k = key then (k, val) :: rest else (k, v) :: dictSet rest key val

/-- Python `d.get(k, default)` for integer-valued attribute records. -/
def attrsGet (attrs : List (String × Int)) (key : String) (dflt : Int) : Int :=
  (dictLookup attrs key).getD dflt

/-- Modelled from the spec: `use_cases/constants.py` is not among the provided
source files.  §4.2 of the spec fixes `DO_NOTHING = 0`. -/
def DO_NOTHING : Int := 0

/-- Modelled from the spec: `use_cases/constants.py` is not among the provided
source files.  The infection-map attribute key for the stored zombie count
(`zombie_count` in the spec's data model, §3). -/
def ZOMBIE_COUNT : String := "zombie_count"

/-- Modelled from the spec: `use_cases/constants.py` is not among the provided
source files.  The attribute key used by delta records (§4.3); it is a key
distinct from `ZOMBIE_COUNT`, which is all the engine relies on. -/
def ZOMBIE_COUNT_DELTA : String := "zombie_count_delta"

/-- Embeds `models/sensor.py`: `status ∈ {normal, alert}`. -/
inductive SensorStatus : Type
  | normal : SensorStatus
  | alert : SensorStatus
deriving DecidableEq

/-- Embeds `models/sensor.py`: a sensor holds just its status (`INITIAL_STATE = "normal"`). -/
structure Sensor where
  status : SensorStatus := SensorStatus.normal
deriving DecidableEq

/-- Embeds `Sensor.trigger`. -/
def Sensor.trigger (_s : Sensor) : Sensor := { status := SensorStatus.alert }

/-- Embeds `Sensor.reset`. -/
def Sensor.reset (_s : Sensor) : Sensor := { status := SensorStatus.normal }

/-- Embeds `models/room.py`. -/
structure Room where
  room_number : Int := 0
  blocked : Bool := false
  sensor : Sensor
deriving DecidableEq

/-- Embeds `models/floor.py`: `rooms : dict[int, Room]`. -/
structure Floor where
  floor_number : Int := 0
  rooms : List (Int × Room) := []
deriving DecidableEq

/-- Embeds `models/building.py`: `floors : dict[int, Floor]`. -/
structure Building where
  floors_count : Int := 1
  rooms_per_floor : Int := 1
  floors : List (Int × Floor) := []
deriving DecidableEq

/-- Embeds `Building.from_2d_floor_spec`: floors `0..floors_count-1`, each with rooms
`0..rooms_per_floor-1`, every room unblocked with a fresh normal sensor. -/
def Building.from_2d_floor_spec (floors_count rooms_per_floor : Int) : Building :=
  { floors_count := floors_count
    rooms_per_floor := rooms_per_floor
    floors :=
      (List.range floors_count.toNat).map fun fn =>
        ((fn : Int),
          { floor_number := (fn : Int)
            rooms :=
              (List.range rooms_per_floor.toNat).map fun rn =>
                ((rn : Int),
                  { room_number := (rn : Int)
                    blocked := false
                    sensor := { status := SensorStatus.normal } }) }) }

/-- Embeds `models/state.py`: `InfectionState = dict[tuple[int, int], dict[str, str | int]]`.
Attribute values are embedded as `Int`; the engine only ever stores and reads
integer counts and deltas under the two attribute keys. -/
abbrev InfectionState : Type := List ((Int × Int) × List (String × Int))

/-- Values appearing in `last_action_payload` dictionaries. -/
inductive PValue : Type
  | int : Int → PValue
  | bool : Bool → PValue
deriving DecidableEq

/-- Embeds `models/state.py`: `ZombieSimulationState`. -/
structure ZombieSimulationState where
  turn : Int := 0
  building : Building
  infected_coords : InfectionState := []
  last_action : String := "START"
  last_action_payload : List (String × PValue) := []
  infection_events_log : List InfectionState := []
deriving DecidableEq

/-- Embeds `use_cases/zombie_simulation.py`: the engine retains a state and the
stochastic flag.  All theorems below concern the deterministic engine
(`stochastic = false`, the constructor default): the stochastic spread branch
consults the process RNG (`random()`, `randint`) and is outside the embedded
fragment. -/
structure ZombieEnvironment where
  state : ZombieSimulationState
  stochastic : Bool := false
deriving DecidableEq

/-- Embeds `ZombieEnvironment.__init__`: the retained state is a deep copy of the
input state (the identity on our immutable values).  Note the constructor
performs no synchronization whatsoever between the infection map and the
sensors. -/
def ZombieEnvironment.init (initial_state : ZombieSimulationState)
    (stochastic : Bool) : ZombieEnvironment :=
  { state := initial_state, stochastic := stochastic }

/-- Embeds `self.step_action_lookup`: the single-entry lookup table built in
`__init__`. -/
def step_action_lookup : List (Int × String) := [(DO_NOTHING, "do_nothing")]

/-- Convenience view: the room stored at `(floor, room)`, through the two
nested dict lookups `state.building.floors[floor].rooms[room]`. -/
def getRoom (state : ZombieSimulationState) (floor room : Int) : Option Room :=
  match dictLookup state.building.floors floor with
  | none => none
  | some fl => dictLookup fl.rooms room

/-- Convenience view: the status of the sensor at a coordinate, if the room
exists. -/
def sensorStatus (state : ZombieSimulationState) (coord : Int × Int) :
    Option SensorStatus :=
  (getRoom state coord.1 coord.2).map fun rm => rm.sensor.status

/-- Convenience view: the stored zombie count at a coordinate, reading a
missing entry or a missing `ZOMBIE_COUNT` key as 0 (the default used by
`_check_infected` and `_apply_infection_action`). -/
def countOf (state : ZombieSimulationState) (coord : Int × Int) : Int :=
  attrsGet ((dictLookup state.infected_coords coord).getD []) ZOMBIE_COUNT 0

/-- Embeds `_room_is_blocked`: `state.building.floors[floor].rooms[room].blocked`;
both subscripts can raise `KeyError`. -/
def room_is_blocked (state : ZombieSimulationState) (floor room : Int) :
    Except String Bool :=
  match dictLookup state.building.floors floor with
  | none => Except.error "KeyError: floor"
  | some fl =>
    match dictLookup fl.rooms room with
    | none => Except.error "KeyError: room"
    | some rm => Except.ok rm.blocked

/-- Embeds `_assert_bounds` (used by the room commands): raises `ValueError` on an
out-of-range index.  Python evaluates `room < 0` before subscripting
`floors[floor]`, so a negative room short-circuits ahead of the possible
`KeyError`. -/
def assert_bounds (state : ZombieSimulationState) (floor room : Int) :
    Except String Unit :=
  if floor < 0 ∨ (state.building.floors.length : Int) ≤ floor then
    Except.error "ValueError: Invalid starting floor number."
  else if room < 0 then
    Except.error "ValueError: Invalid starting room number."
  else
    match dictLookup state.building.floors floor with
    | none => Except.error "KeyError: floor"
    | some fl =>
      if (fl.rooms.length : Int) ≤ room then
        Except.error "ValueError: Invalid starting room number."
      else Except.ok ()

/-- Embeds `_check_room_exists`: `floors.get(floor)` then `room in floor.rooms`;
never raises. -/
def check_room_exists (state : ZombieSimulationState) (floor room : Int) : Bool :=
  match dictLookup state.building.floors floor with
  | none => false
  | some fl => dictContains fl.rooms room

/-- Embeds `_check_bounds`: `0 <= floor < len(floors) and 0 <= room <
len(floors[floor].rooms)`.  Python's chained comparison checks `0 <= room`
before evaluating `floors[floor]`, which can raise `KeyError` when `floor` is
below `len(floors)` but is not a key of the floors dict. -/
def check_bounds (state : ZombieSimulationState) (floor room : Int) :
    Except String Bool :=
  if 0 ≤ floor ∧ floor < (state.building.floors.length : Int) then
    if 0 ≤ room then
      match dictLookup state.building.floors floor with
      | none => Except.error "KeyError: floor"
      | some fl => Except.ok (decide (room < (fl.rooms.length : Int)))
    else Except.ok false
  else Except.ok false

/-- Embeds `_check_infected`: `state.infected_coords[(floor, room)]` raises
`KeyError` when the coordinate has no entry; otherwise the room is infected
iff `get(ZOMBIE_COUNT, 0)` is non-zero. -/
def check_infected (state : ZombieSimulationState) (floor room : Int) :
    Except String Bool :=
  match dictLookup state.infected_coords (floor, room) with
  | none => Except.error "KeyError: infected_coords"
  | some attrs => Except.ok (decide (attrsGet attrs ZOMBIE_COUNT 0 ≠ 0))

/-- The candidate offsets generated by the two nested `range(-1, 2)` loops of
`_spread_infection_room`, filtered by `abs(i) + abs(j) == 1`, in generation
order. -/
def neighborOffsets : List (Int × Int) := [(-1, 0), (0, -1), (0, 1), (1, 0)]

/-- One eligibility test of the neighbor loop:
`_check_bounds(...) and not _room_is_blocked(...) and _check_room_exists(...)`,
with Python's left-to-right short-circuit evaluation. -/
def neighbor_eligible (state : ZombieSimulationState) (floor room : Int) :
    Except String Bool :=
  match check_bounds state floor room with
  | Except.error e => Except.error e
  | Except.ok false => Except.ok false
  | Except.ok true =>
    match room_is_blocked state floor room with
    | Except.error e => Except.error e
    | Except.ok true => Except.ok false
    | Except.ok false => Except.ok (check_room_exists state floor room)

/-- The `possible_adjacent_rooms` collection of `_spread_infection_room`.
The Python code accumulates the eligible coordinates into a `set`; the
candidates are pairwise distinct, and we keep them in generation order (the
set's hash-based iteration order is unspecified; every property proved below
is insensitive to the order). -/
def collectNeighbors (state : ZombieSimulationState) (floor room : Int) :
    List (Int × Int) → Except String (List (Int × Int))
  | [] => Except.ok []
  | off :: rest =>
    match neighbor_eligible state (floor + off.1) (room + off.2) with
    | Except.error e => Except.error e
    | Except.ok e =>
      match collectNeighbors state floor room rest with
      | Except.error e2 => Except.error e2
      | Except.ok tail =>
        Except.ok (if e then (floor + off.1, room + off.2) :: tail else tail)

/-- Embeds `_infect_room`: three `assert` preconditions, then the single-entry delta
record `{(floor, room): {ZOMBIE_COUNT_DELTA: quantity}}`. -/
def infect_room (state : ZombieSimulationState) (floor room quantity : Int) :
    Except String InfectionState :=
  match check_bounds state floor room with
  | Except.error e => Except.error e
  | Except.ok false => Except.error "AssertionError: Invalid room coordinates."
  | Except.ok true =>
    if ¬ check_room_exists state floor room then
      Except.error "AssertionError: Room does not exist."
    else
      match room_is_blocked state floor room with
      | Except.error e => Except.error e
      | Except.ok true => Except.error "AssertionError: Room is blocked."
      | Except.ok false =>
        Except.ok [((floor, room), [(ZOMBIE_COUNT_DELTA, quantity)])]

/-- The power the spread algorithm reads for a seed room:
`infected_coords.get((floor, room), {}).get(ZOMBIE_COUNT, 1)` (note the
default of 1 for a missing `ZOMBIE_COUNT` key). -/
def spread_power (state : ZombieSimulationState) (floor room : Int) : Int :=
  attrsGet ((dictLookup state.infected_coords (floor, room)).getD []) ZOMBIE_COUNT 1

/-- The deterministic branch of the neighbor loop of `_spread_infection_room`:
every eligible neighbor receives
`strength = max(infection_power // max(len(possible_adjacent_rooms), 1), 1)`
(the set size `n` is constant across the loop), and `infection_status`
accumulates the strengths handed out.  `//` is Python floor division
(`Int.fdiv`). -/
def spread_loop (state : ZombieSimulationState) (power : Int) (n : Nat) :
    List (Int × Int) → Except String (List InfectionState × Int)
  | [] => Except.ok ([], 0)
  | c :: rest =>
    match infect_room state c.1 c.2 (max (Int.fdiv power (max (n : Int) 1)) 1) with
    | Except.error e => Except.error e
    | Except.ok act =>
      match spread_loop state power n rest with
      | Except.error e => Except.error e
      | Except.ok (acts, status) =>
        Except.ok (act :: acts, status + max (Int.fdiv power (max (n : Int) 1)) 1)

/-- Embeds `_spread_infection_room` in deterministic mode: the three asserts, the
infected check (in the Python code the non-infected branch returns the state
object instead of a list — a type slip that is unreachable from
`_spread_infection`, whose loop only calls this method on coordinates it has
just checked to be infected; we embed that dead branch as an error), the
eligible-neighbor collection, the spread loop, and the final self-delta
`{(floor, room): {ZOMBIE_COUNT_DELTA: min(0, power - status)}}`. -/
def spread_infection_room (state : ZombieSimulationState) (floor room : Int) :
    Except String (List InfectionState) :=
  match check_bounds state floor room with
  | Except.error e => Except.error e
  | Except.ok false => Except.error "AssertionError: Invalid room coordinates."
  | Except.ok true =>
    if ¬ check_room_exists state floor room then
      Except.error "AssertionError: Room does not exist."
    else
      match room_is_blocked state floor room with
      | Except.error e => Except.error e
      | Except.ok true => Except.error "AssertionError: Room is blocked."
      | Except.ok false =>
        match check_infected state floor room with
        | Except.error e => Except.error e
        | Except.ok false => Except.error "unreachable: non-infected seed"
        | Except.ok true =>
          match collectNeighbors state floor room neighborOffsets with
          | Except.error e => Except.error e
          | Except.ok ns =>
            match spread_loop state (spread_power state floor room) ns.length ns with
            | Except.error e => Except.error e
            | Except.ok (acts, status) =>
              Except.ok
                (acts ++
                  [[((floor, room),
                     [(ZOMBIE_COUNT_DELTA,
                       min 0 (spread_power state floor room - status))])]])

/-- The sensor-trigger side effect of `_apply_infection_action` for a positive
delta: `state.building.floors[room[0]].rooms[room[1]].sensor.trigger()`; both
subscripts can raise `KeyError`. -/
def triggerSensor (state : ZombieSimulationState) (coord : Int × Int) :
    Except String ZombieSimulationState :=
  match dictLookup state.building.floors coord.1 with
  | none => Except.error "KeyError: floor"
  | some fl =>
    match dictLookup fl.rooms coord.2 with
    | none => Except.error "KeyError: room"
    | some rm =>
      Except.ok
        { state with
          building :=
            { state.building with
              floors :=
                dictSet state.building.floors coord.1
                  { fl with
                    rooms := dictSet fl.rooms coord.2
                      { rm with sensor := rm.sensor.trigger } } } }

/-- The count update of `_apply_infection_action` for one delta `value`: the
entry is guaranteed present (it was created just before the attribute loop),
`ZOMBIE_COUNT` is first created with value 0 when missing, then set to
`max(0, old + value)`. -/
def updateEntry (state : ZombieSimulationState) (coord : Int × Int)
    (value : Int) : ZombieSimulationState :=
  let entry := (dictLookup state.infected_coords coord).getD []
  let entry := if dictContains entry ZOMBIE_COUNT then entry
               else dictSet entry ZOMBIE_COUNT 0
  let entry := dictSet entry ZOMBIE_COUNT (max 0 (attrsGet entry ZOMBIE_COUNT 0 + value))
  { state with infected_coords := dictSet state.infected_coords coord entry }

/-- The attribute loop of `_apply_infection_action`: only the
`ZOMBIE_COUNT_DELTA` attribute has an effect; a positive value first triggers
the room's sensor (possible `KeyError` when the room does not exist), then the
stored count is clamped at 0 from below. -/
def apply_attrs (state : ZombieSimulationState) (coord : Int × Int) :
    List (String × Int) → Except String ZombieSimulationState
  | [] => Except.ok state
  | (attrKey, value) :: rest =>
    if attrKey = ZOMBIE_COUNT_DELTA then
      match (if value > 0 then triggerSensor state coord else Except.ok state) with
      | Except.error e => Except.error e
      | Except.ok state1 => apply_attrs (updateEntry state1 coord value) coord rest
    else apply_attrs state coord rest

/-- Embeds `_apply_infection_action`: for each `(room, attributes)` item of the delta
record, first create a missing infection-map entry as the empty record, then
run the attribute loop.  (Every record the engine constructs holds exactly one
item.) -/
def apply_infection_action (state : ZombieSimulationState) :
    InfectionState → Except String ZombieSimulationState
  | [] => Except.ok state
  | (coord, attributes) :: rest =>
    match apply_attrs
        (if dictContains state.infected_coords coord then state
         else { state with
                infected_coords := dictSet state.infected_coords coord [] })
        coord attributes with
    | Except.error e => Except.error e
    | Except.ok state1 => apply_infection_action state1 rest

/-- The collection loop of `_spread_infection`: iterate over the keys of the
infection map in insertion order; for each coordinate that `_check_infected`
reports infected, collect the delta records produced by
`_spread_infection_room`.  (The Python loop reads keys from the pre-copy
`state` and checks/spreads on the fresh deep copy `new_state`; the two are
equal values at that point, so one state suffices here.) -/
def collectInfectionActions (state : ZombieSimulationState) :
    List (Int × Int) → Except String (List InfectionState)
  | [] => Except.ok []
  | coord :: rest =>
    match check_infected state coord.1 coord.2 with
    | Except.error e => Except.error e
    | Except.ok infected =>
      match (if infected then spread_infection_room state coord.1 coord.2
             else Except.ok []) with
      | Except.error e => Except.error e
      | Except.ok acts =>
        match collectInfectionActions state rest with
        | Except.error e => Except.error e
        | Except.ok tailActs => Except.ok (acts ++ tailActs)

/-- The application loop of `_spread_infection`. -/
def applyAll (state : ZombieSimulationState) :
    List InfectionState → Except String ZombieSimulationState
  | [] => Except.ok state
  | act :: rest =>
    match apply_infection_action state act with
    | Except.error e => Except.error e
    | Except.ok state1 => applyAll state1 rest

/-- Embeds `_spread_infection` (deterministic mode): collect one batch of delta
records from the snapshot, apply them all, extend `infection_events_log` with
the records (`+=` on the Python list appends each record as its own element),
and record `last_action`/`last_action_payload` via `_apply_update`.  The
engine's retained `self.state` becomes the same value as the returned one. -/
def spread_infection (stochastic : Bool) (state : ZombieSimulationState) :
    Except String ZombieSimulationState :=
  match collectInfectionActions state (state.infected_coords.map Prod.fst) with
  | Except.error e => Except.error e
  | Except.ok actions =>
    match applyAll state actions with
    | Except.error e => Except.error e
    | Except.ok state1 =>
      Except.ok
        { state1 with
          infection_events_log := state1.infection_events_log ++ actions
          last_action := "spread_infection"
          last_action_payload := [("stochastic", PValue.bool stochastic)] }

/-- Embeds `ZombieEnvironment.step` (deterministic engine): copy the state, increment
the turn, and when `action != 0 and action not in self.step_action_lookup`
run `getattr(self, self.step_action_lookup.get(action, "do_nothing"))` —
the lookup table only maps 0, so the fallback name `do_nothing` is used, and
`ZombieEnvironment` defines no method of that name: the `getattr` call raises
`AttributeError`.  Otherwise infection spread runs. -/
def step (state : ZombieSimulationState) (action : Int) :
    Except String ZombieSimulationState :=
  if action ≠ 0 ∧ ¬ dictContains step_action_lookup action then
    Except.error "AttributeError: ZombieEnvironment object has no attribute do_nothing"
  else
    spread_infection false { state with turn := state.turn + 1 }

/-- Embeds `ZombieEnvironment.clean_room`: after the bounds assertion the code calls
`new_state.infected_coords.popitem((floor, room))`, but `dict.popitem` takes
no arguments, so the call raises `TypeError` before anything is removed (and
the subsequent `self._apply_update(new_state, "clean_room", {...})` call would
itself be missing its `payload` argument). -/
def clean_room (env : ZombieEnvironment) (floor room : Int) :
    Except String ZombieSimulationState :=
  match assert_bounds env.state floor room with
  | Except.error e => Except.error e
  | Except.ok _ => Except.error "TypeError: popitem() takes no arguments (1 given)"

/-- Embeds `ZombieEnvironment.reset_simulation`: the fresh state is built, but the
commit call `self._apply_update(new_state, "reset_simulation")` passes only 2
of the 4 required positional arguments of `_apply_update(state, old_state,
action, payload)`, so the method raises `TypeError` on every invocation (the
repository's own test additionally passes an `infected_coords` keyword the
signature does not accept). -/
def reset_simulation (_env : ZombieEnvironment) :
    Except String ZombieSimulationState :=
  Except.error
    "TypeError: _apply_update() missing 2 required positional arguments: action and payload"

/-- The direct state mutation used by the repository's tests to block a room
(`env.state.building.floors[f].rooms[r].blocked = True`); identity when the
room does not exist (the tests only use existing rooms). -/
def set_blocked (state : ZombieSimulationState) (floor room : Int) (b : Bool) :
    ZombieSimulationState :=
  match dictLookup state.building.floors floor with
  | none => state
  | some fl =>
    match dictLookup fl.rooms room with
    | none => state
    | some rm =>
      { state with
        building :=
          { state.building with
            floors :=
              dictSet state.building.floors floor
                { fl with rooms := dictSet fl.rooms room { rm with blocked := b } } } }

/-- All coordinates targeted by a list of delta records. -/
def actionCoords : List InfectionState → List (Int × Int)
  | [] => []
  | act :: rest => act.map Prod.fst ++ actionCoords rest

/-- The message belongs to one of the three `assert` statements of the
propagation code. -/
def isAssertionMsg (msg : String) : Bool :=
  msg = "AssertionError: Invalid room coordinates." ∨
    msg = "AssertionError: Room does not exist." ∨
      msg = "AssertionError: Room is blocked."

/-- The result of an engine call is an assertion failure (one of the three
`assert` messages of the propagation code), as opposed to a normal result or
another exception class. -/
def isAssertionFailure (r : Except String ZombieSimulationState) : Bool :=
  match r with
  | Except.ok _ => false
  | Except.error msg => isAssertionMsg msg

/-- A building whose floor keys are exactly `0, 1, ..., len-1` in order, and
likewise for the room keys of every floor — the shape `from_2d_floor_spec`
produces, and the shape on which the dict subscripts of `_check_bounds` /
`_room_is_blocked` can never raise `KeyError`. -/
def wf_building (b : Building) : Prop :=
  b.floors.map Prod.fst = (List.range b.floors.length).map (Nat.cast : Nat → Int) ∧
    ∀ p ∈ b.floors,
      p.2.rooms.map Prod.fst =
        (List.range p.2.rooms.length).map (Nat.cast : Nat → Int)

instance (b : Building) : Decidable (wf_building b) := by
  unfold wf_building
  infer_instance

/-- The shape of the room at a coordinate: identity and blocked flag, without
the sensor.  Delta application can flip sensors but preserves this view. -/
def roomShape (state : ZombieSimulationState) (coord : Int × Int) :
    Option (Int × Bool) :=
  (getRoom state coord.1 coord.2).map fun rm => (rm.room_number, rm.blocked)

/-- Every coordinate targeted by the delta records resolves to an existing,
unblocked room. -/
def targetsOk (state : ZombieSimulationState) (acts : List InfectionState) : Prop :=
  ∀ c ∈ actionCoords acts,
    ∃ rm, getRoom state c.1 c.2 = some rm ∧ rm.blocked = false

/-- A 1×1 building with no infection. -/
def sampleOneByOne : ZombieSimulationState :=
  { building := Building.from_2d_floor_spec 1 1 }

/-- A 1×2 building with `(0, 0)` infected at count 1 and all sensors normal
(the scenario of the repository's `test_initial_infection_triggers_sensor`). -/
def sampleOneByTwoInfected : ZombieSimulationState :=
  { building := Building.from_2d_floor_spec 1 2
    infected_coords := [((0, 0), [(ZOMBIE_COUNT, 1)])] }

/-- A 2×1 building with `(0, 0)` seeded at count 2 (the scenario of
`test_zombie_cross_floor_infection`). -/
def sampleTwoByOne : ZombieSimulationState :=
  { building := Building.from_2d_floor_spec 2 1
    infected_coords := [((0, 0), [(ZOMBIE_COUNT, 2)])] }

/-- A 1×1 building with `(0, 0)` infected at count 2 (the scenario of
`test_clean_room_removes_infection`). -/
def sampleInfectedOneByOne : ZombieSimulationState :=
  { building := Building.from_2d_floor_spec 1 1
    infected_coords := [((0, 0), [(ZOMBIE_COUNT, 2)])] }

/-- A 1×2 building where the sole neighbor `(0, 1)` of the infected seed
`(0, 0)` is blocked (the scenario of `test_blocked_room_prevents_infection`,
which sets the flag directly on the state). -/
def sampleBlockedNeighbor : ZombieSimulationState :=
  set_blocked
    { building := Building.from_2d_floor_spec 1 2
      infected_coords := [((0, 0), [(ZOMBIE_COUNT, 2)])] }
    0 1 true

/-- The blocked room of `sampleBlockedNeighbor`. -/
def sampleBlockedRoom : Room :=
  { room_number := 1, blocked := true, sensor := { status := SensorStatus.normal } }

/-- A 1×1 building whose only room is both infected and blocked: a
caller-supplied state that violates the propagation contract. -/
def sampleBlockedSeed : ZombieSimulationState :=
  set_blocked
    { building := Building.from_2d_floor_spec 1 1
      infected_coords := [((0, 0), [(ZOMBIE_COUNT, 1)])] }
    0 0 true

/-- The room of `sampleBlockedSeed`. -/
def sampleBlockedSeedRoom : Room :=
  { room_number := 0, blocked := true, sensor := { status := SensorStatus.normal } }

/-- The state produced by one deterministic step on `sampleTwoByOne`. -/
def steppedTwoByOne : ZombieSimulationState :=
  (step sampleTwoByOne 0).toOption.getD sampleTwoByOne

/-- The state produced by one deterministic step on `sampleBlockedNeighbor`. -/
def steppedBlockedNeighbor : ZombieSimulationState :=
  (step sampleBlockedNeighbor 0).toOption.getD sampleBlockedNeighbor

/-- The state produced by one deterministic step on `sampleOneByOne`. -/
def steppedOneByOne : ZombieSimulationState :=
  (step sampleOneByOne 0).toOption.getD sampleOneByOne

/-- The state produced by applying a single `+3` delta at `(0, 0)` to
`sampleOneByOne`. -/
def appliedDeltaOneByOne : ZombieSimulationState :=
  (apply_infection_action sampleOneByOne
      [((0, 0), [(ZOMBIE_COUNT_DELTA, 3)])]).toOption.getD sampleOneByOne

/-- The delta records produced by the seed `(0, 0)` of `sampleTwoByOne`. -/
def twoByOneRoomActs : List InfectionState :=
  (spread_infection_room sampleTwoByOne 0 0).toOption.getD []

theorem dictLookup_isSome_iff {α β : Type} [DecidableEq α] (d : List (α × β))
    (k : α) : (dictLookup d k).isSome ↔ k ∈ d.map Prod.fst := by
  induction d with
  | nil => simp [dictLookup]
  | cons hd tl ih =>
    obtain ⟨k0, v0⟩ := hd
    by_cases h : k0 = k
    · subst h
      simp [dictLookup]
    · simp only [dictLookup, if_neg h, List.map_cons, List.mem_cons, ih]
      constructor
      · exact fun hm => Or.inr hm
      · rintro (rfl | hm)
        · exact absurd rfl h
        · exact hm

theorem dictLookup_mem {α β : Type} [DecidableEq α] {d : List (α × β)}
    {k : α} {v : β} (h : dictLookup d k = some v) : (k, v) ∈ d := by
  induction d with
  | nil => simp [dictLookup] at h
  | cons hd tl ih =>
    obtain ⟨k0, v0⟩ := hd
    by_cases hk : k0 = k
    · subst hk
      have hv : v0 = v := by simpa [dictLookup] using h
      subst hv
      exact List.mem_cons_self _ _
    · simp only [dictLookup, if_neg hk] at h
      exact List.mem_cons_of_mem _ (ih h)

theorem dictSet_lookup_self {α β : Type} [DecidableEq α] (d : List (α × β))
    (k : α) (v : β) : dictLookup (dictSet d k v) k = some v := by
  induction d with
  | nil => simp [dictSet, dictLookup]
  | cons hd tl ih =>
    obtain ⟨k0, v0⟩ := hd
    by_cases h : k0 = k
    · subst h
      simp [dictSet, dictLookup]
    · simp [dictSet, dictLookup, if_neg h, ih]

theorem dictSet_lookup_ne {α β : Type} [DecidableEq α] (d : List (α × β))
    (k : α) (v : β) (k2 : α) (hne : k ≠ k2) :
    dictLookup (dictSet d k v) k2 = dictLookup d k2 := by
  induction d with
  | nil => simp [dictSet, dictLookup, fun h => hne h]
  | cons hd tl ih =>
    obtain ⟨k0, v0⟩ := hd
    by_cases h : k0 = k
    · subst h
      simp [dictSet, dictLookup, if_neg (fun h2 => hne h2)]
    · simp [dictSet, dictLookup, if_neg h, ih]

theorem attrsGet_dictSet_self (attrs : List (String × Int)) (key : String)
    (v : Int) (dflt : Int) : attrsGet (dictSet attrs key v) key dflt = v := by
  simp [attrsGet, dictSet_lookup_self]

theorem getRoom_some_of_blocked_ok {state : ZombieSimulationState}
    {floor room : Int} {b : Bool}
    (h : room_is_blocked state floor room = Except.ok b) :
    ∃ rm, getRoom state floor room = some rm ∧ rm.blocked = b := by
  unfold room_is_blocked at h
  unfold getRoom
  split at h
  · exact absurd h (by simp)
  · next fl heq =>
    split at h
    · exact absurd h (by simp)
    · next rm hrm =>
      exact ⟨rm, hrm, by simpa using h⟩

theorem blocked_ok_of_getRoom_some {state : ZombieSimulationState}
    {floor room : Int} {rm : Room} (h : getRoom state floor room = some rm) :
    room_is_blocked state floor room = Except.ok rm.blocked := by
  unfold getRoom at h
  unfold room_is_blocked
  split at h
  · exact absurd h (by simp)
  · next fl heq =>
    simp [h]

theorem check_room_exists_iff (state : ZombieSimulationState)
    (floor room : Int) :
    check_room_exists state floor room = true ↔ (getRoom state floor room).isSome := by
  unfold check_room_exists getRoom dictContains
  cases dictLookup state.building.floors floor with
  | none => simp
  | some fl => simp

theorem actionCoords_append (xs ys : List InfectionState) :
    actionCoords (xs ++ ys) = actionCoords xs ++ actionCoords ys := by
  induction xs with
  | nil => simp [actionCoords]
  | cons a rest ih => simp [actionCoords, ih]

theorem mem_actionCoords {c : Int × Int} {acts : List InfectionState} :
    c ∈ actionCoords acts ↔ ∃ a ∈ acts, c ∈ a.map Prod.fst := by
  induction acts with
  | nil => simp [actionCoords]
  | cons a rest ih =>
    simp only [actionCoords, List.mem_append, ih, List.mem_cons]
    constructor
    · rintro (hc | ⟨a2, ha2, hc⟩)
      · exact ⟨a, Or.inl rfl, hc⟩
      · exact ⟨a2, Or.inr ha2, hc⟩
    · rintro ⟨a2, (rfl | ha2), hc⟩
      · exact Or.inl hc
      · exact Or.inr ⟨a2, ha2, hc⟩

theorem neighbor_eligible_ok_true {state : ZombieSimulationState}
    {floor room : Int}
    (h : neighbor_eligible state floor room = Except.ok true) :
    ∃ rm, getRoom state floor room = some rm ∧ rm.blocked = false := by
  unfold neighbor_eligible at h
  split at h
  · exact absurd h (by simp)
  · exact absurd h (by simp)
  · split at h
    · exact absurd h (by simp)
    · exact absurd h (by simp)
    · next hblk =>
      obtain ⟨rm, hrm, hb⟩ := getRoom_some_of_blocked_ok hblk
      exact ⟨rm, hrm, hb⟩

theorem collectNeighbors_mem {state : ZombieSimulationState}
    {floor room : Int} {offs : List (Int × Int)} {ns : List (Int × Int)}
    (h : collectNeighbors state floor room offs = Except.ok ns) :
    ∀ c ∈ ns, neighbor_eligible state c.1 c.2 = Except.ok true := by
  induction offs generalizing ns with
  | nil =>
    simp only [collectNeighbors, Except.ok.injEq] at h
    subst h
    intro c hc
    simp at hc
  | cons off rest ih =>
    unfold collectNeighbors at h
    split at h
    · exact absurd h (by simp)
    · next e helig =>
      split at h
      · exact absurd h (by simp)
      · next tail htail =>
        simp only [Except.ok.injEq] at h
        subst h
        intro c hc
        cases e with
        | false =>
          simp at hc
          exact ih htail c hc
        | true =>
          simp at hc
          rcases hc with rfl | hc2
          · exact helig
          · exact ih htail c hc2

theorem infect_room_ok {state : ZombieSimulationState}
    {floor room quantity : Int} {act : InfectionState}
    (h : infect_room state floor room quantity = Except.ok act) :
    act = [((floor, room), [(ZOMBIE_COUNT_DELTA, quantity)])] ∧
      ∃ rm, getRoom state floor room = some rm ∧ rm.blocked = false := by
  unfold infect_room at h
  split at h
  · exact absurd h (by simp)
  · exact absurd h (by simp)
  · split at h
    · exact absurd h (by simp)
    · split at h
      · exact absurd h (by simp)
      · exact absurd h (by simp)
      · next hblk =>
        refine ⟨by simpa using h.symm, ?_⟩
        obtain ⟨rm, hrm, hb⟩ := getRoom_some_of_blocked_ok hblk
        exact ⟨rm, hrm, hb⟩

theorem spread_loop_records {state : ZombieSimulationState} {power : Int}
    {n : Nat} {cs : List (Int × Int)} {acts : List InfectionState}
    {status : Int}
    (h : spread_loop state power n cs = Except.ok (acts, status)) :
    (∀ c ∈ cs,
        [(c, [(ZOMBIE_COUNT_DELTA, max (Int.fdiv power (max (n : Int) 1)) 1)])] ∈ acts) ∧
      ∀ a ∈ acts, ∃ c ∈ cs,
        a = [(c, [(ZOMBIE_COUNT_DELTA, max (Int.fdiv power (max (n : Int) 1)) 1)])] := by
  induction cs generalizing acts status with
  | nil =>
    simp only [spread_loop, Except.ok.injEq, Prod.mk.injEq] at h
    obtain ⟨h1, _⟩ := h
    subst h1
    exact ⟨by simp, by simp⟩
  | cons c0 rest ih =>
    unfold spread_loop at h
    cases hact : infect_room state c0.1 c0.2
        (max (Int.fdiv power (max (n : Int) 1)) 1) with
    | error e => rw [hact] at h; simp at h
    | ok act =>
      rw [hact] at h
      cases hp : spread_loop state power n rest with
      | error e => rw [hp] at h; simp at h
      | ok p =>
        obtain ⟨acts0, status0⟩ := p
        rw [hp] at h
        simp only [Except.ok.injEq, Prod.mk.injEq] at h
        obtain ⟨h1, _⟩ := h
        subst h1
        obtain ⟨hrec, _⟩ := infect_room_ok hact
        have hc0 : act =
            [(c0, [(ZOMBIE_COUNT_DELTA, max (Int.fdiv power (max (n : Int) 1)) 1)])] := by
          simpa using hrec
        obtain ⟨ihmem, ihall⟩ := ih hp
        constructor
        · intro c hc
          rcases List.mem_cons.mp hc with rfl | hc2
          · rw [hc0]
            exact List.mem_cons_self _ _
          · exact List.mem_cons_of_mem _ (ihmem c hc2)
        · intro a ha
          rcases List.mem_cons.mp ha with rfl | ha2
          · exact ⟨c0, List.mem_cons_self _ _, hc0⟩
          · obtain ⟨c, hc, he⟩ := ihall a ha2
            exact ⟨c, List.mem_cons_of_mem _ hc, he⟩

theorem spread_room_inv {state : ZombieSimulationState} {floor room : Int}
    {acts : List InfectionState}
    (h : spread_infection_room state floor room = Except.ok acts) :
    ∃ ns acts0 status,
      collectNeighbors state floor room neighborOffsets = Except.ok ns ∧
        spread_loop state (spread_power state floor room) ns.length ns =
          Except.ok (acts0, status) ∧
        acts = acts0 ++
          [[((floor, room),
             [(ZOMBIE_COUNT_DELTA, min 0 (spread_power state floor room - status))])]] ∧
        room_is_blocked state floor room = Except.ok false := by
  unfold spread_infection_room at h
  split at h
  · exact absurd h (by simp)
  · exact absurd h (by simp)
  · split at h
    · exact absurd h (by simp)
    · split at h
      · exact absurd h (by simp)
      · exact absurd h (by simp)
      · next hblk =>
        split at h
        · exact absurd h (by simp)
        · exact absurd h (by simp)
        · split at h
          · exact absurd h (by simp)
          · next ns hns =>
            cases hp : spread_loop state (spread_power state floor room)
                ns.length ns with
            | error e => rw [hp] at h; simp at h
            | ok p =>
              obtain ⟨acts0, status⟩ := p
              rw [hp] at h
              refine ⟨ns, acts0, status, hns, hp, ?_, hblk⟩
              simpa using h.symm

theorem spread_room_targets {state : ZombieSimulationState} {floor room : Int}
    {acts : List InfectionState}
    (h : spread_infection_room state floor room = Except.ok acts) :
    targetsOk state acts := by
  obtain ⟨ns, acts0, status, hns, hloop, hacts, hblk⟩ := spread_room_inv h
  intro c hc
  subst hacts
  rw [actionCoords_append] at hc
  rcases List.mem_append.mp hc with hc0 | hcs
  · obtain ⟨a, ha, hca⟩ := mem_actionCoords.mp hc0
    obtain ⟨_, hall⟩ := spread_loop_records hloop
    obtain ⟨c2, hc2, hrec⟩ := hall a ha
    subst hrec
    simp only [List.map_cons, List.map_nil, List.mem_singleton] at hca
    subst hca
    exact neighbor_eligible_ok_true (collectNeighbors_mem hns c hc2)
  · simp only [actionCoords, List.map_cons, List.map_nil, List.append_nil,
      List.mem_singleton] at hcs
    subst hcs
    obtain ⟨rm, hrm, hb⟩ := getRoom_some_of_blocked_ok hblk
    exact ⟨rm, hrm, hb⟩

theorem collect_targets {state : ZombieSimulationState}
    {ks : List (Int × Int)} {acts : List InfectionState}
    (h : collectInfectionActions state ks = Except.ok acts) :
    targetsOk state acts := by
  induction ks generalizing acts with
  | nil =>
    simp only [collectInfectionActions, Except.ok.injEq] at h
    subst h
    intro c hc
    simp [actionCoords] at hc
  | cons k rest ih =>
    unfold collectInfectionActions at h
    split at h
    · exact absurd h (by simp)
    · next infected hinf =>
      split at h
      · exact absurd h (by simp)
      · next actsHead hhead =>
        split at h
        · exact absurd h (by simp)
        · next tailActs htail =>
          simp only [Except.ok.injEq] at h
          subst h
          intro c hc
          rw [actionCoords_append] at hc
          rcases List.mem_append.mp hc with hc1 | hc2
          · cases infected with
            | true =>
              simp only [if_pos rfl] at hhead
              exact spread_room_targets hhead c hc1
            | false =>
              simp only [Bool.false_eq_true, if_neg] at hhead
              have : actsHead = ([] : List InfectionState) := by
                simpa using hhead.symm
              subst this
              simp [actionCoords] at hc1
          · exact ih htail c hc2

theorem triggerSensor_getRoom {state state1 : ZombieSimulationState}
    {coord : Int × Int} (h : triggerSensor state coord = Except.ok state1) :
    (∀ c2 : Int × Int, c2 ≠ coord →
        getRoom state1 c2.1 c2.2 = getRoom state c2.1 c2.2) ∧
      (∃ rm, getRoom state coord.1 coord.2 = some rm ∧
          getRoom state1 coord.1 coord.2 = some { rm with sensor := rm.sensor.trigger }) ∧
      state1.infected_coords = state.infected_coords ∧
      state1.turn = state.turn ∧
      state1.infection_events_log = state.infection_events_log := by
  unfold triggerSensor at h
  split at h
  · exact absurd h (by simp)
  · next fl hfl =>
    split at h
    · exact absurd h (by simp)
    · next rm hrm =>
      simp only [Except.ok.injEq] at h
      subst h
      refine ⟨?_, ⟨rm, ?_, ?_⟩, rfl, rfl, rfl⟩
      · intro c2 hne
        unfold getRoom
        by_cases hf : c2.1 = coord.1
        · rw [hf, dictSet_lookup_self, hfl]
          have hr : coord.2 ≠ c2.2 := by
            intro hr2
            exact hne (Prod.ext hf hr2.symm)
          exact dictSet_lookup_ne _ _ _ _ hr
        · rw [dictSet_lookup_ne _ _ _ _ (fun h2 => hf h2.symm)]
      · unfold getRoom
        rw [hfl]
        exact hrm
      · unfold getRoom
        rw [dictSet_lookup_self]
        exact dictSet_lookup_self _ _ _

theorem updateEntry_getRoom (state : ZombieSimulationState) (coord : Int × Int)
    (v : Int) (floor room : Int) :
    getRoom (updateEntry state coord v) floor room = getRoom state floor room := rfl

theorem updateEntry_lookup_ne (state : ZombieSimulationState) (coord : Int × Int)
    (v : Int) (c2 : Int × Int) (hne : c2 ≠ coord) :
    dictLookup (updateEntry state coord v).infected_coords c2 =
      dictLookup state.infected_coords c2 := by
  unfold updateEntry
  exact dictSet_lookup_ne _ _ _ _ (fun h2 => hne h2.symm)

theorem ensure_lookup_ne (state : ZombieSimulationState) (coord : Int × Int)
    (c2 : Int × Int) (hne : c2 ≠ coord) :
    dictLookup
      (if dictContains state.infected_coords coord then state
       else { state with
              infected_coords :=
                dictSet state.infected_coords coord [] }).infected_coords c2 =
      dictLookup state.infected_coords c2 := by
  by_cases hc : dictContains state.infected_coords coord
  · rw [if_pos hc]
  · rw [if_neg hc]
    exact dictSet_lookup_ne _ _ _ _ (fun h2 => hne h2.symm)

theorem apply_attrs_pres {state : ZombieSimulationState} {coord : Int × Int}
    {attrs : List (String × Int)} {state1 : ZombieSimulationState}
    (h : apply_attrs state coord attrs = Except.ok state1) :
    (∀ c2 : Int × Int, c2 ≠ coord →
        getRoom state1 c2.1 c2.2 = getRoom state c2.1 c2.2 ∧
          dictLookup state1.infected_coords c2 = dictLookup state.infected_coords c2) ∧
      (∀ c2, roomShape state1 c2 = roomShape state c2) ∧
      state1.turn = state.turn ∧
      state1.infection_events_log = state.infection_events_log := by
  induction attrs generalizing state with
  | nil =>
    simp only [apply_attrs, Except.ok.injEq] at h
    subst h
    exact ⟨fun c2 _ => ⟨rfl, rfl⟩, fun c2 => rfl, rfl, rfl⟩
  | cons kv rest ih =>
    obtain ⟨key, v⟩ := kv
    unfold apply_attrs at h
    by_cases hkey : key = ZOMBIE_COUNT_DELTA
    · rw [if_pos hkey] at h
      by_cases hv : v > 0
      · rw [if_pos hv] at h
        cases htr : triggerSensor state coord with
        | error e => rw [htr] at h; simp at h
        | ok sTr =>
          rw [htr] at h
          simp only [] at h
          obtain ⟨ihne, ihshape, ihturn, ihlog⟩ := ih h
          obtain ⟨tne, ⟨rm, hrm, hrm2⟩, tinf, tturn, tlog⟩ := triggerSensor_getRoom htr
          refine ⟨?_, ?_, ?_, ?_⟩
          · intro c2 hne
            obtain ⟨g1, l1⟩ := ihne c2 hne
            constructor
            · exact g1.trans (tne c2 hne)
            · rw [l1, updateEntry_lookup_ne _ _ _ _ hne, tinf]
          · intro c3
            rw [ihshape c3]
            by_cases hc : c3 = coord
            · subst hc
              unfold roomShape
              rw [updateEntry_getRoom, hrm2, hrm]
              rfl
            · unfold roomShape
              rw [updateEntry_getRoom, tne c3 hc]
          · exact ihturn.trans tturn
          · exact ihlog.trans tlog
      · rw [if_neg hv] at h
        simp only [] at h
        obtain ⟨ihne, ihshape, ihturn, ihlog⟩ := ih h
        refine ⟨?_, ihshape, ihturn, ihlog⟩
        intro c2 hne
        obtain ⟨g1, l1⟩ := ihne c2 hne
        exact ⟨g1, by rw [l1, updateEntry_lookup_ne _ _ _ _ hne]⟩
    · rw [if_neg hkey] at h
      exact ih h

theorem apply_action_pres {state : ZombieSimulationState} {rec : InfectionState}
    {state1 : ZombieSimulationState}
    (h : apply_infection_action state rec = Except.ok state1) :
    (∀ c2 : Int × Int, c2 ∉ rec.map Prod.fst →
        getRoom state1 c2.1 c2.2 = getRoom state c2.1 c2.2 ∧
          dictLookup state1.infected_coords c2 = dictLookup state.infected_coords c2) ∧
      (∀ c2, roomShape state1 c2 = roomShape state c2) ∧
      state1.turn = state.turn ∧
      state1.infection_events_log = state.infection_events_log := by
  induction rec generalizing state with
  | nil =>
    simp only [apply_infection_action, Except.ok.injEq] at h
    subst h
    exact ⟨fun c2 _ => ⟨rfl, rfl⟩, fun c2 => rfl, rfl, rfl⟩
  | cons item rest ih =>
    obtain ⟨coord, attributes⟩ := item
    unfold apply_infection_action at h
    by_cases hcon : dictContains state.infected_coords coord
    · rw [if_pos hcon] at h
      cases ha : apply_attrs state coord attributes with
      | error e => rw [ha] at h; simp at h
      | ok s1 =>
        rw [ha] at h
        simp only [] at h
        obtain ⟨ane, ashape, aturn, alog⟩ := apply_attrs_pres ha
        obtain ⟨ihne, ihshape, ihturn, ihlog⟩ := ih h
        refine ⟨?_, fun c2 => (ihshape c2).trans (ashape c2), ihturn.trans aturn,
          ihlog.trans alog⟩
        intro c2 hc2
        have hne : c2 ≠ coord := by
          intro he
          exact hc2 (by simp [he])
        have hnr : c2 ∉ rest.map Prod.fst := by
          intro hm
          exact hc2 (by simp [hm])
        obtain ⟨g1, l1⟩ := ihne c2 hnr
        obtain ⟨g2, l2⟩ := ane c2 hne
        exact ⟨g1.trans g2, l1.trans l2⟩
    · rw [if_neg hcon] at h
      cases ha : apply_attrs
          { state with infected_coords := dictSet state.infected_coords coord [] }
          coord attributes with
      | error e => rw [ha] at h; simp at h
      | ok s1 =>
        rw [ha] at h
        simp only [] at h
        obtain ⟨ane, ashape, aturn, alog⟩ := apply_attrs_pres ha
        obtain ⟨ihne, ihshape, ihturn, ihlog⟩ := ih h
        refine ⟨?_, fun c2 => (ihshape c2).trans (ashape c2), ihturn.trans aturn,
          ihlog.trans alog⟩
        intro c2 hc2
        have hne : c2 ≠ coord := by
          intro he
          exact hc2 (by simp [he])
        have hnr : c2 ∉ rest.map Prod.fst := by
          intro hm
          exact hc2 (by simp [hm])
        obtain ⟨g1, l1⟩ := ihne c2 hnr
        obtain ⟨g2, l2⟩ := ane c2 hne
        refine ⟨g1.trans g2, (l1.trans l2).trans ?_⟩
        exact dictSet_lookup_ne _ _ _ _ (fun h2 => hne h2.symm)

theorem roomShape_unblocked {state : ZombieSimulationState} {c : Int × Int}
    {rm : Room} (hg : getRoom state c.1 c.2 = some rm) (hb : rm.blocked = false)
    {state1 : ZombieSimulationState}
    (hs : roomShape state1 c = roomShape state c) :
    ∃ rm2, getRoom state1 c.1 c.2 = some rm2 ∧ rm2.blocked = false := by
  unfold roomShape at hs
  rw [hg] at hs
  cases hg1 : getRoom state1 c.1 c.2 with
  | none => rw [hg1] at hs; simp at hs
  | some rm2 =>
    rw [hg1] at hs
    simp at hs
    exact ⟨rm2, rfl, hs.2.trans hb⟩

theorem applyAll_pres {state : ZombieSimulationState}
    {acts : List InfectionState} {state1 : ZombieSimulationState}
    (h : applyAll state acts = Except.ok state1) (ht : targetsOk state acts) :
    (∀ (c2 : Int × Int) (rm : Room), getRoom state c2.1 c2.2 = some rm →
        rm.blocked = true →
        getRoom state1 c2.1 c2.2 = some rm ∧
          dictLookup state1.infected_coords c2 = dictLookup state.infected_coords c2) ∧
      state1.turn = state.turn ∧
      state1.infection_events_log = state.infection_events_log := by
  induction acts generalizing state with
  | nil =>
    simp only [applyAll, Except.ok.injEq] at h
    subst h
    exact ⟨fun c2 rm _ _ => ⟨by assumption, rfl⟩, rfl, rfl⟩
  | cons a rest ih =>
    unfold applyAll at h
    cases ha : apply_infection_action state a with
    | error e => rw [ha] at h; simp at h
    | ok s1 =>
      rw [ha] at h
      simp only [] at h
      obtain ⟨ane, ashape, aturn, alog⟩ := apply_action_pres ha
      have ht1 : targetsOk s1 rest := by
        intro c hc
        have hc2 : c ∈ actionCoords (a :: rest) := by
          unfold actionCoords
          exact List.mem_append.mpr (Or.inr hc)
        obtain ⟨rm2, hg, hb⟩ := ht c hc2
        exact roomShape_unblocked hg hb (ashape c)
      obtain ⟨ihblk, ihturn, ihlog⟩ := ih h ht1
      refine ⟨?_, ihturn.trans aturn, ihlog.trans alog⟩
      intro c2 rm hg hb
      have hnotin : c2 ∉ a.map Prod.fst := by
        intro hm
        have hc2 : c2 ∈ actionCoords (a :: rest) := by
          unfold actionCoords
          exact List.mem_append.mpr (Or.inl hm)
        obtain ⟨rmX, hgX, hbX⟩ := ht c2 hc2
        rw [hg] at hgX
        have : rm = rmX := by simpa using hgX
        rw [← this] at hbX
        rw [hbX] at hb
        exact absurd hb (by simp)
      obtain ⟨g1, l1⟩ := ane c2 hnotin
      have hg1 : getRoom s1 c2.1 c2.2 = some rm := g1.trans hg
      obtain ⟨g2, l2⟩ := ihblk c2 rm hg1 hb
      exact ⟨g2, l2.trans l1⟩

theorem keys_range_lookup {α : Type} (d : List (Int × α)) (n : Nat)
    (hk : d.map Prod.fst = (List.range n).map (Nat.cast : Nat → Int)) (k : Int) :
    (dictLookup d k).isSome ↔ (0 ≤ k ∧ k < (n : Int)) := by
  rw [dictLookup_isSome_iff, hk]
  simp only [List.mem_map, List.mem_range]
  constructor
  · rintro ⟨m, hm, rfl⟩
    omega
  · rintro ⟨h0, hn⟩
    exact ⟨k.toNat, by omega, by omega⟩

theorem wf_floors_keys {state : ZombieSimulationState}
    (hwf : wf_building state.building) (floor : Int) :
    (dictLookup state.building.floors floor).isSome ↔
      (0 ≤ floor ∧ floor < (state.building.floors.length : Int)) :=
  keys_range_lookup state.building.floors state.building.floors.length hwf.1 floor

theorem wf_rooms_keys {state : ZombieSimulationState}
    (hwf : wf_building state.building) {floor : Int} {fl : Floor}
    (hfl : dictLookup state.building.floors floor = some fl) (room : Int) :
    (dictLookup fl.rooms room).isSome ↔
      (0 ≤ room ∧ room < (fl.rooms.length : Int)) :=
  keys_range_lookup fl.rooms fl.rooms.length (hwf.2 _ (dictLookup_mem hfl)) room

theorem wf_check_bounds_ok {state : ZombieSimulationState}
    (hwf : wf_building state.building) (floor room : Int) :
    ∃ b, check_bounds state floor room = Except.ok b := by
  unfold check_bounds
  by_cases h1 : 0 ≤ floor ∧ floor < (state.building.floors.length : Int)
  · rw [if_pos h1]
    by_cases h2 : 0 ≤ room
    · rw [if_pos h2]
      cases hfl : dictLookup state.building.floors floor with
      | none =>
        have hs := (wf_floors_keys hwf floor).mpr h1
        rw [hfl] at hs
        simp at hs
      | some fl => exact ⟨_, rfl⟩
    · rw [if_neg h2]
      exact ⟨false, rfl⟩
  · rw [if_neg h1]
    exact ⟨false, rfl⟩

theorem wf_check_bounds_true {state : ZombieSimulationState}
    (hwf : wf_building state.building) {floor room : Int}
    (hg : (getRoom state floor room).isSome) :
    check_bounds state floor room = Except.ok true := by
  unfold getRoom at hg
  cases hfl : dictLookup state.building.floors floor with
  | none => rw [hfl] at hg; simp at hg
  | some fl =>
    rw [hfl] at hg
    have h1 : 0 ≤ floor ∧ floor < (state.building.floors.length : Int) :=
      (wf_floors_keys hwf floor).mp (by rw [hfl]; rfl)
    have h2 := (wf_rooms_keys hwf hfl room).mp hg
    unfold check_bounds
    rw [if_pos h1, if_pos h2.1, hfl]
    simp [h2.2]

theorem wf_bounds_true_isSome {state : ZombieSimulationState}
    (hwf : wf_building state.building) {floor room : Int}
    (hb : check_bounds state floor room = Except.ok true) :
    (getRoom state floor room).isSome := by
  unfold check_bounds at hb
  by_cases h1 : 0 ≤ floor ∧ floor < (state.building.floors.length : Int)
  · rw [if_pos h1] at hb
    by_cases h2 : 0 ≤ room
    · rw [if_pos h2] at hb
      cases hfl : dictLookup state.building.floors floor with
      | none => rw [hfl] at hb; simp at hb
      | some fl =>
        rw [hfl] at hb
        have h3 : room < (fl.rooms.length : Int) := by simpa using hb
        have hs := (wf_rooms_keys hwf hfl room).mpr ⟨h2, h3⟩
        unfold getRoom
        rw [hfl]
        exact hs
    · rw [if_neg h2] at hb
      simp at hb
  · rw [if_neg h1] at hb
    simp at hb

theorem wf_neighbor_eligible_ok {state : ZombieSimulationState}
    (hwf : wf_building state.building) (floor room : Int) :
    ∃ b, neighbor_eligible state floor room = Except.ok b := by
  unfold neighbor_eligible
  obtain ⟨b, hb⟩ := wf_check_bounds_ok hwf floor room
  rw [hb]
  cases b with
  | false => exact ⟨false, rfl⟩
  | true =>
    have hg := wf_bounds_true_isSome hwf hb
    obtain ⟨rm, hrm⟩ := Option.isSome_iff_exists.mp hg
    have hblk := blocked_ok_of_getRoom_some hrm
    cases hbv : rm.blocked with
    | true =>
      rw [hbv] at hblk
      rw [hblk]
      exact ⟨false, rfl⟩
    | false =>
      rw [hbv] at hblk
      rw [hblk]
      exact ⟨check_room_exists state floor room, rfl⟩

theorem wf_collectNeighbors_ok {state : ZombieSimulationState}
    (hwf : wf_building state.building) (floor room : Int)
    (offs : List (Int × Int)) :
    ∃ ns, collectNeighbors state floor room offs = Except.ok ns := by
  induction offs with
  | nil => exact ⟨[], rfl⟩
  | cons off rest ih =>
    obtain ⟨ns, hns⟩ := ih
    obtain ⟨b, hb⟩ := wf_neighbor_eligible_ok hwf (floor + off.1) (room + off.2)
    unfold collectNeighbors
    rw [hb, hns]
    exact ⟨_, rfl⟩

theorem wf_infect_room_ok {state : ZombieSimulationState}
    (hwf : wf_building state.building) {floor room : Int} {rm : Room}
    (hrm : getRoom state floor room = some rm) (hb : rm.blocked = false)
    (quantity : Int) :
    infect_room state floor room quantity =
      Except.ok [((floor, room), [(ZOMBIE_COUNT_DELTA, quantity)])] := by
  unfold infect_room
  rw [wf_check_bounds_true hwf (by rw [hrm]; rfl)]
  have hex : check_room_exists state floor room = true :=
    (check_room_exists_iff _ _ _).mpr (by rw [hrm]; rfl)
  have hblk := blocked_ok_of_getRoom_some hrm
  rw [hb] at hblk
  simp [hex, hblk]

theorem wf_spread_loop_ok {state : ZombieSimulationState}
    (hwf : wf_building state.building) (power : Int) (n : Nat)
    {cs : List (Int × Int)}
    (helig : ∀ c ∈ cs, neighbor_eligible state c.1 c.2 = Except.ok true) :
    ∃ acts status, spread_loop state power n cs = Except.ok (acts, status) := by
  induction cs with
  | nil => exact ⟨[], 0, rfl⟩
  | cons c rest ih =>
    obtain ⟨acts, status, hloop⟩ :=
      ih fun c2 hc2 => helig c2 (List.mem_cons_of_mem _ hc2)
    obtain ⟨rm, hrm, hbv⟩ :=
      neighbor_eligible_ok_true (helig c (List.mem_cons_self _ _))
    unfold spread_loop
    rw [wf_infect_room_ok hwf hrm hbv, hloop]
    exact ⟨_, _, rfl⟩

theorem wf_spread_room_blocked {state : ZombieSimulationState}
    {floor room : Int} (hwf : wf_building state.building) {rm : Room}
    (hrm : getRoom state floor room = some rm) (hb : rm.blocked = true) :
    spread_infection_room state floor room =
      Except.error "AssertionError: Room is blocked." := by
  unfold spread_infection_room
  rw [wf_check_bounds_true hwf (by rw [hrm]; rfl)]
  rw [if_neg (not_not_intro ((check_room_exists_iff _ _ _).mpr (by rw [hrm]; rfl)))]
  have hblk := blocked_ok_of_getRoom_some hrm
  rw [hb] at hblk
  rw [hblk]

theorem wf_spread_room {state : ZombieSimulationState} {floor room : Int}
    (hwf : wf_building state.building)
    (hinf : check_infected state floor room = Except.ok true) :
    (∃ acts, spread_infection_room state floor room = Except.ok acts) ∨
      (∃ msg, spread_infection_room state floor room = Except.error msg ∧
        isAssertionMsg msg = true) := by
  unfold spread_infection_room
  obtain ⟨b, hb⟩ := wf_check_bounds_ok hwf floor room
  rw [hb]
  cases b with
  | false => exact Or.inr ⟨_, rfl, by decide⟩
  | true =>
    by_cases hex : check_room_exists state floor room
    · rw [if_neg (not_not_intro hex)]
      have hg := wf_bounds_true_isSome hwf hb
      obtain ⟨rm, hrm⟩ := Option.isSome_iff_exists.mp hg
      have hblk := blocked_ok_of_getRoom_some hrm
      cases hbv : rm.blocked with
      | true =>
        rw [hbv] at hblk
        rw [hblk]
        exact Or.inr ⟨_, rfl, by decide⟩
      | false =>
        rw [hbv] at hblk
        obtain ⟨ns, hns⟩ := wf_collectNeighbors_ok hwf floor room neighborOffsets
        obtain ⟨acts, status, hloop⟩ :=
          wf_spread_loop_ok hwf (spread_power state floor room) ns.length
            (collectNeighbors_mem hns)
        refine Or.inl ⟨acts ++
          [[((floor, room),
             [(ZOMBIE_COUNT_DELTA,
               min 0 (spread_power state floor room - status))])]], ?_⟩
        simp [hblk, hinf, hns, hloop]
    · rw [if_pos hex]
      exact Or.inr ⟨_, rfl, by decide⟩

theorem wf_collect_error {state : ZombieSimulationState} {ks : List (Int × Int)}
    (hwf : wf_building state.building)
    (hkeys : ∀ c ∈ ks, (dictLookup state.infected_coords c).isSome)
    {c0 : Int × Int} (hc0 : c0 ∈ ks) {attrs0 : List (String × Int)}
    (ha0 : dictLookup state.infected_coords c0 = some attrs0)
    (hz : attrsGet attrs0 ZOMBIE_COUNT 0 ≠ 0)
    {rm0 : Room} (hr0 : getRoom state c0.1 c0.2 = some rm0)
    (hb0 : rm0.blocked = true) :
    ∃ msg, collectInfectionActions state ks = Except.error msg ∧
      isAssertionMsg msg = true := by
  induction ks with
  | nil => simp at hc0
  | cons k rest ih =>
    have hksome := hkeys k (List.mem_cons_self _ _)
    obtain ⟨attrsK, haK⟩ := Option.isSome_iff_exists.mp hksome
    have haK2 : dictLookup state.infected_coords (k.1, k.2) = some attrsK := haK
    have hci : check_infected state k.1 k.2 =
        Except.ok (decide (attrsGet attrsK ZOMBIE_COUNT 0 ≠ 0)) := by
      unfold check_infected
      rw [haK2]
    by_cases hck : attrsGet attrsK ZOMBIE_COUNT 0 ≠ 0
    · have hci2 : check_infected state k.1 k.2 = Except.ok true := by
        rw [hci]
        simp [hck]
      rcases wf_spread_room hwf hci2 with ⟨acts, hok⟩ | ⟨msg, herr, hmsg⟩
      · have hkne : c0 ≠ k := by
          intro he
          subst he
          rw [wf_spread_room_blocked hwf hr0 hb0] at hok
          exact absurd hok (by simp)
        have hc0r : c0 ∈ rest := by
          rcases List.mem_cons.mp hc0 with he | hr
          · exact absurd he hkne
          · exact hr
        obtain ⟨msg, hcr, hmsg⟩ :=
          ih (fun c hc => hkeys c (List.mem_cons_of_mem _ hc)) hc0r
        refine ⟨msg, ?_, hmsg⟩
        unfold collectInfectionActions
        rw [hci2]
        simp [hok, hcr]
      · refine ⟨msg, ?_, hmsg⟩
        unfold collectInfectionActions
        rw [hci2]
        simp [herr]
    · have hci2 : check_infected state k.1 k.2 = Except.ok false := by
        rw [hci]
        simp [hck]
      have hkne : c0 ≠ k := by
        intro he
        subst he
        rw [haK] at ha0
        have : attrs0 = attrsK := by simpa using ha0.symm
        subst this
        exact hck hz
      have hc0r : c0 ∈ rest := by
        rcases List.mem_cons.mp hc0 with he | hr
        · exact absurd he hkne
        · exact hr
      obtain ⟨msg, hcr, hmsg⟩ :=
        ih (fun c hc => hkeys c (List.mem_cons_of_mem _ hc)) hc0r
      refine ⟨msg, ?_, hmsg⟩
      unfold collectInfectionActions
      rw [hci2]
      simp [hcr]

theorem applyAll_turn_log {state : ZombieSimulationState}
    {acts : List InfectionState} {state1 : ZombieSimulationState}
    (h : applyAll state acts = Except.ok state1) :
    state1.turn = state.turn ∧
      state1.infection_events_log = state.infection_events_log := by
  induction acts generalizing state with
  | nil =>
    simp only [applyAll, Except.ok.injEq] at h
    subst h
    exact ⟨rfl, rfl⟩
  | cons a rest ih =>
    unfold applyAll at h
    cases ha : apply_infection_action state a with
    | error e => rw [ha] at h; simp at h
    | ok s1 =>
      rw [ha] at h
      simp only [] at h
      obtain ⟨_, _, aturn, alog⟩ := apply_action_pres ha
      obtain ⟨iturn, ilog⟩ := ih h
      exact ⟨iturn.trans aturn, ilog.trans alog⟩

theorem spread_infection_ok_inv {stochastic : Bool}
    {state state1 : ZombieSimulationState}
    (h : spread_infection stochastic state = Except.ok state1) :
    ∃ actions s1,
      collectInfectionActions state (state.infected_coords.map Prod.fst) =
        Except.ok actions ∧
      applyAll state actions = Except.ok s1 ∧
      state1 = { s1 with
                 infection_events_log := s1.infection_events_log ++ actions
                 last_action := "spread_infection"
                 last_action_payload := [("stochastic", PValue.bool stochastic)] } := by
  unfold spread_infection at h
  cases hc : collectInfectionActions state (state.infected_coords.map Prod.fst) with
  | error e => rw [hc] at h; simp at h
  | ok actions =>
    rw [hc] at h
    simp only [] at h
    cases happ : applyAll state actions with
    | error e => rw [happ] at h; simp at h
    | ok s1 =>
      rw [happ] at h
      simp only [Except.ok.injEq] at h
      exact ⟨actions, s1, rfl, happ, h.symm⟩

theorem step_ok_spread {state : ZombieSimulationState} {action : Int}
    {s2 : ZombieSimulationState} (h : step state action = Except.ok s2) :
    spread_infection false { state with turn := state.turn + 1 } =
      Except.ok s2 := by
  unfold step at h
  by_cases hc : action ≠ 0 ∧ ¬ dictContains step_action_lookup action
  · rw [if_pos hc] at h
    exact absurd h (by simp)
  · rw [if_neg hc] at h
    exact h

theorem attrsGet_not_contains {e : List (String × Int)} {key : String}
    (h : dictContains e key = false) (dflt : Int) : attrsGet e key dflt = dflt := by
  unfold dictContains at h
  unfold attrsGet
  cases hl : dictLookup e key with
  | none => rfl
  | some v => rw [hl] at h; simp at h

theorem countOf_updateEntry (s : ZombieSimulationState) (c : Int × Int)
    (v : Int) : countOf (updateEntry s c v) c = max 0 (countOf s c + v) := by
  simp only [countOf, updateEntry]
  rw [dictSet_lookup_self]
  simp only [Option.getD_some]
  rw [attrsGet_dictSet_self]
  by_cases hc : dictContains ((dictLookup s.infected_coords c).getD []) ZOMBIE_COUNT
  · rw [if_pos hc]
  · rw [if_neg hc, attrsGet_dictSet_self]
    have h0 : dictContains ((dictLookup s.infected_coords c).getD [])
        ZOMBIE_COUNT = false := by simpa using hc
    rw [attrsGet_not_contains h0]

theorem contains_updateEntry (s : ZombieSimulationState) (c : Int × Int)
    (v : Int) : dictContains (updateEntry s c v).infected_coords c = true := by
  simp only [updateEntry, dictContains]
  rw [dictSet_lookup_self]
  rfl

theorem countOf_congr_infected {s t : ZombieSimulationState}
    (h : s.infected_coords = t.infected_coords) (c : Int × Int) :
    countOf s c = countOf t c := by
  unfold countOf
  rw [h]

theorem countOf_ensure (state : ZombieSimulationState) (coord : Int × Int) :
    countOf
      (if dictContains state.infected_coords coord then state
       else { state with
              infected_coords := dictSet state.infected_coords coord [] })
      coord = countOf state coord := by
  by_cases hcon : dictContains state.infected_coords coord
  · rw [if_pos hcon]
  · rw [if_neg hcon]
    have hn : dictLookup state.infected_coords coord = none := by
      cases hl : dictLookup state.infected_coords coord with
      | none => rfl
      | some x =>
        unfold dictContains at hcon
        rw [hl] at hcon
        simp at hcon
    simp only [countOf]
    rw [dictSet_lookup_self, hn]
    rfl

theorem sensorStatus_ensure (state : ZombieSimulationState) (coord : Int × Int)
    (c2 : Int × Int) :
    sensorStatus
      (if dictContains state.infected_coords coord then state
       else { state with
              infected_coords := dictSet state.infected_coords coord [] })
      c2 = sensorStatus state c2 := by
  by_cases hcon : dictContains state.infected_coords coord
  · rw [if_pos hcon]
  · rw [if_neg hcon]
    rfl

theorem apply_single_attr_pos {s0 : ZombieSimulationState} {coord : Int × Int}
    {v : Int} {s1 : ZombieSimulationState} (hv : 0 < v)
    (h : apply_attrs s0 coord [(ZOMBIE_COUNT_DELTA, v)] = Except.ok s1) :
    ∃ sTr, triggerSensor s0 coord = Except.ok sTr ∧
      s1 = updateEntry sTr coord v := by
  unfold apply_attrs at h
  rw [if_pos rfl, if_pos hv] at h
  cases htr : triggerSensor s0 coord with
  | error e => rw [htr] at h; simp at h
  | ok sTr =>
    rw [htr] at h
    simp only [] at h
    simp only [apply_attrs, Except.ok.injEq] at h
    exact ⟨sTr, rfl, h.symm⟩

theorem apply_single_attr_nonpos {s0 : ZombieSimulationState}
    {coord : Int × Int} {v : Int} {s1 : ZombieSimulationState} (hv : ¬ 0 < v)
    (h : apply_attrs s0 coord [(ZOMBIE_COUNT_DELTA, v)] = Except.ok s1) :
    s1 = updateEntry s0 coord v := by
  unfold apply_attrs at h
  rw [if_pos rfl, if_neg hv] at h
  simp only [] at h
  simp only [apply_attrs, Except.ok.injEq] at h
  exact h.symm

/-- C1: when a `ZombieEnvironment` is constructed from an initial state whose
infection map marks `(0, 0)` with `zombie_count = 1` while every sensor is
still `normal`, the retained state is exactly the input state: the sensor of
the infected room `(0, 0)` remains `normal`, refuting the claimed
constructor-time synchronization (which the repository's own tests
`test_initial_infection_triggers_sensor` and `test_sensor_alert_on_startup`
assert). -/
theorem c1_constructor_does_not_sync_sensors :
    (ZombieEnvironment.init sampleOneByTwoInfected false).state =
        sampleOneByTwoInfected ∧
      sensorStatus (ZombieEnvironment.init sampleOneByTwoInfected false).state
          (0, 0) = some SensorStatus.normal ∧
      countOf (ZombieEnvironment.init sampleOneByTwoInfected false).state
          (0, 0) = 1 :=
  ⟨rfl, rfl, rfl⟩

/-- C2: in deterministic mode, every eligible neighbor of a seed room with
positive power receives a delta record of exactly
`max(power // max(n, 1), 1)` where `n` is the number of eligible neighbors;
and in the 2×1 building seeded with count 2 at `(0, 0)`, one step makes
`(1, 0)` appear in the infection map with positive count 2. -/
theorem c2_deterministic_split :
    (∀ (state : ZombieSimulationState) (floor room : Int)
        (ns : List (Int × Int)) (acts : List InfectionState),
        collectNeighbors state floor room neighborOffsets = Except.ok ns →
        spread_infection_room state floor room = Except.ok acts →
        0 < spread_power state floor room →
        ∀ c ∈ ns,
          [(c, [(ZOMBIE_COUNT_DELTA,
            max (Int.fdiv (spread_power state floor room)
              (max (ns.length : Int) 1)) 1)])] ∈ acts) ∧
      ((step sampleTwoByOne 0).toOption.map fun s =>
        (dictContains s.infected_coords (1, 0), countOf s (1, 0))) =
        some (true, 2) := by
  constructor
  · intro state floor room ns acts hns hacts hpow c hc
    obtain ⟨ns2, acts0, status, hns2, hloop, heq, _⟩ := spread_room_inv hacts
    rw [hns] at hns2
    have hnseq : ns2 = ns := by simpa using hns2.symm
    subst hnseq
    obtain ⟨hmem, _⟩ := spread_loop_records hloop
    subst heq
    exact List.mem_append_left _ (hmem c hc)
  · rfl

/-- C2 witness: the general part instantiated on the 2×1 building; the sole
eligible neighbor `(1, 0)` of the seed `(0, 0)` (power 2) receives a delta of
exactly 2. -/
theorem c2_witness :
    0 < spread_power sampleTwoByOne 0 0 ∧
      [((1, 0), [(ZOMBIE_COUNT_DELTA, 2)])] ∈ twoByOneRoomActs :=
  ⟨by decide,
    c2_deterministic_split.1 sampleTwoByOne 0 0 [(1, 0)] twoByOneRoomActs rfl
      rfl (by decide) (1, 0) (by decide)⟩

/-- C3: applying a single delta record `(coord, strength)` creates a missing
infection-map entry (reading its count as 0), clamps the new count at
`max(0, old + strength)`, triggers the room's sensor to `alert` whenever
`strength > 0` regardless of the clamped result, and changes no sensor at all
when `strength ≤ 0`. -/
theorem c3_apply_delta (state : ZombieSimulationState) (coord : Int × Int)
    (v : Int) (state1 : ZombieSimulationState)
    (_hex : 0 < v → (getRoom state coord.1 coord.2).isSome)
    (h : apply_infection_action state [(coord, [(ZOMBIE_COUNT_DELTA, v)])] =
      Except.ok state1) :
    dictContains state1.infected_coords coord = true ∧
      countOf state1 coord = max 0 (countOf state coord + v) ∧
      (0 < v → sensorStatus state1 coord = some SensorStatus.alert) ∧
      (v ≤ 0 → ∀ c2, sensorStatus state1 c2 = sensorStatus state c2) := by
  unfold apply_infection_action at h
  cases ha : apply_attrs
      (if dictContains state.infected_coords coord then state
       else { state with
              infected_coords := dictSet state.infected_coords coord [] })
      coord [(ZOMBIE_COUNT_DELTA, v)] with
  | error e => rw [ha] at h; simp at h
  | ok s1 =>
    rw [ha] at h
    simp only [] at h
    simp only [apply_infection_action, Except.ok.injEq] at h
    subst h
    by_cases hv : 0 < v
    · obtain ⟨sTr, htr, hs1⟩ := apply_single_attr_pos hv ha
      subst hs1
      obtain ⟨_, ⟨rm, hrm, hrm2⟩, tinf, _, _⟩ := triggerSensor_getRoom htr
      refine ⟨contains_updateEntry _ _ _, ?_, ?_, ?_⟩
      · rw [countOf_updateEntry, countOf_congr_infected tinf,
          countOf_ensure]
      · intro _
        show sensorStatus sTr coord = some SensorStatus.alert
        unfold sensorStatus
        rw [hrm2]
        rfl
      · intro hle
        exact absurd hv (by omega)
    · have hs1 := apply_single_attr_nonpos hv ha
      subst hs1
      refine ⟨contains_updateEntry _ _ _, ?_, ?_, ?_⟩
      · rw [countOf_updateEntry, countOf_ensure]
      · intro hpos
        exact absurd hpos hv
      · intro _ c2
        show sensorStatus
          (if dictContains state.infected_coords coord then state
           else { state with
                  infected_coords := dictSet state.infected_coords coord [] })
          c2 = sensorStatus state c2
        exact sensorStatus_ensure state coord c2

/-- C3 witness: applying the delta `+3` at `(0, 0)` of the fresh 1×1 building
creates the entry with count `max(0, 0 + 3) = 3` and sets the sensor to
alert. -/
theorem c3_witness :
    dictContains appliedDeltaOneByOne.infected_coords (0, 0) = true ∧
      countOf appliedDeltaOneByOne (0, 0) =
        max 0 (countOf sampleOneByOne (0, 0) + 3) ∧
      sensorStatus appliedDeltaOneByOne (0, 0) = some SensorStatus.alert := by
  obtain ⟨h1, h2, h3, _⟩ :=
    c3_apply_delta sampleOneByOne (0, 0) 3 appliedDeltaOneByOne
      (fun _ => by decide) rfl
  exact ⟨h1, h2, h3 (by decide)⟩

/-- C4: `clean_room` never removes anything: the Python body calls
`dict.popitem` with an argument, which raises `TypeError` on every in-bounds
call (the repository's `test_clean_room_removes_infection` expects the entry
to be removed instead). -/
theorem c4_clean_room_type_error :
    clean_room (ZombieEnvironment.init sampleInfectedOneByOne false) 0 0 =
      Except.error "TypeError: popitem() takes no arguments (1 given)" := rfl

/-- C5 counterexample: `step` does not return a turn-advanced state for every
action code — with action code 1 (unregistered) it raises `AttributeError`
and returns no state at all. -/
theorem c5_counterexample :
    step sampleOneByOne 1 =
        Except.error
          "AttributeError: ZombieEnvironment object has no attribute do_nothing" ∧
      (step sampleOneByOne 1).toOption = none :=
  ⟨rfl, rfl⟩

/-- C5 (amended): whenever `step` does return a state, that state's turn is
the input state's turn plus exactly 1, regardless of the action code and of
the infection map's contents. -/
theorem c5_turn_increment (state : ZombieSimulationState) (action : Int)
    (s2 : ZombieSimulationState) (h : step state action = Except.ok s2) :
    s2.turn = state.turn + 1 := by
  have hs := step_ok_spread h
  obtain ⟨actions, s1, hcol, happ, heq⟩ := spread_infection_ok_inv hs
  obtain ⟨hturn, _⟩ := applyAll_turn_log happ
  subst heq
  exact hturn

/-- C5 witness: a plain step on the uninfected 1×1 building succeeds and
advances the turn from 0 to 1. -/
theorem c5_witness :
    step sampleOneByOne 0 = Except.ok steppedOneByOne ∧
      steppedOneByOne.turn = sampleOneByOne.turn + 1 :=
  ⟨rfl, c5_turn_increment sampleOneByOne 0 steppedOneByOne rfl⟩

/-- C6: every non-zero action code is unregistered (the lookup table maps
only `DO_NOTHING = 0`), and `step` fails fast on it: `getattr` on the
fallback name `do_nothing`, which `ZombieEnvironment` does not define, raises
`AttributeError`, so no normally-advanced state is returned. -/
theorem c6_unregistered_action_fails (state : ZombieSimulationState)
    (action : Int) (h : action ≠ 0) :
    step state action =
      Except.error
        "AttributeError: ZombieEnvironment object has no attribute do_nothing" := by
  unfold step
  have hnc : ¬ dictContains step_action_lookup action = true := by
    simp [dictContains, step_action_lookup, dictLookup, DO_NOTHING]
    omega
  rw [if_pos ⟨h, hnc⟩]

/-- C6 witness: action code 5 on the 1×1 building raises. -/
theorem c6_witness :
    step sampleOneByOne 5 =
      Except.error
        "AttributeError: ZombieEnvironment object has no attribute do_nothing" :=
  c6_unregistered_action_fails sampleOneByOne 5 (by decide)

/-- C7: `reset_simulation` never returns a state: its commit call passes only
2 of the 4 required positional arguments of `_apply_update`, raising
`TypeError` on every invocation (and its signature has no seed-map parameter,
although the repository's `test_reset_simulation_keeps_structure` passes
one). -/
theorem c7_reset_simulation_type_error :
    reset_simulation (ZombieEnvironment.init sampleInfectedOneByOne false) =
      Except.error
        "TypeError: _apply_update() missing 2 required positional arguments: action and payload" :=
  rfl

/-- C8 counterexample: a propagation step does not append one single batch
element — on the 2×1 building seeded at count 2 the computed batch holds 2
delta records and the log grows from 0 to 2 elements. -/
theorem c8_counterexample :
    ((step sampleTwoByOne 0).toOption.map fun s =>
        s.infection_events_log.length) = some 2 ∧
      sampleTwoByOne.infection_events_log.length = 0 :=
  ⟨rfl, rfl⟩

/-- C8 (amended): each successful step extends `infection_events_log` at the
end with exactly the delta records computed from that step's snapshot, one
log element per record, never removing or altering existing entries. -/
theorem c8_log_append (state : ZombieSimulationState) (action : Int)
    (s2 : ZombieSimulationState) (h : step state action = Except.ok s2) :
    ∃ recs,
      collectInfectionActions { state with turn := state.turn + 1 }
          (state.infected_coords.map Prod.fst) = Except.ok recs ∧
        s2.infection_events_log = state.infection_events_log ++ recs := by
  have hs := step_ok_spread h
  obtain ⟨actions, s1, hcol, happ, heq⟩ := spread_infection_ok_inv hs
  obtain ⟨_, hlog⟩ := applyAll_turn_log happ
  subst heq
  refine ⟨actions, hcol, ?_⟩
  show s1.infection_events_log ++ actions =
    state.infection_events_log ++ actions
  rw [hlog]

/-- C8 witness: the amended statement instantiated on the 2×1 building. -/
theorem c8_witness :
    ∃ recs,
      collectInfectionActions
          { sampleTwoByOne with turn := sampleTwoByOne.turn + 1 }
          (sampleTwoByOne.infected_coords.map Prod.fst) = Except.ok recs ∧
        steppedTwoByOne.infection_events_log =
          sampleTwoByOne.infection_events_log ++ recs :=
  c8_log_append sampleTwoByOne 0 steppedTwoByOne rfl

/-- C9: a blocked room never receives spread: whenever `step` returns a
state, every room that was blocked in the input keeps exactly its room record
(including its sensor) and its infection-map entry — in particular a room
absent from the map stays absent, with no count and no sensor trigger. -/
theorem c9_blocked_room_untouched (state : ZombieSimulationState)
    (action : Int) (s2 : ZombieSimulationState) (floor room : Int) (rm : Room)
    (h : step state action = Except.ok s2)
    (hrm : getRoom state floor room = some rm) (hb : rm.blocked = true) :
    getRoom s2 floor room = some rm ∧
      dictLookup s2.infected_coords (floor, room) =
        dictLookup state.infected_coords (floor, room) := by
  have hs := step_ok_spread h
  obtain ⟨actions, s1, hcol, happ, heq⟩ := spread_infection_ok_inv hs
  have ht : targetsOk { state with turn := state.turn + 1 } actions :=
    collect_targets hcol
  obtain ⟨hblk, _, _⟩ := applyAll_pres happ ht
  have hrm2 : getRoom { state with turn := state.turn + 1 }
      ((floor, room) : Int × Int).1 ((floor, room) : Int × Int).2 = some rm := hrm
  obtain ⟨g, l⟩ := hblk (floor, room) rm hrm2 hb
  subst heq
  exact ⟨g, l⟩

/-- C9 witness: blocking the sole neighbor `(0, 1)` of the seed `(0, 0)` in
the 1×2 building and stepping leaves `(0, 1)` absent from the infection map,
with its room record (blocked, sensor normal) unchanged. -/
theorem c9_witness :
    getRoom steppedBlockedNeighbor 0 1 = some sampleBlockedRoom ∧
      dictLookup steppedBlockedNeighbor.infected_coords (0, 1) = none := by
  obtain ⟨g, l⟩ :=
    c9_blocked_room_untouched sampleBlockedNeighbor 0 steppedBlockedNeighbor
      0 1 sampleBlockedRoom rfl rfl rfl
  exact ⟨g, by rw [l]; rfl⟩

/-- C10: the propagation contract-check is reachable from caller-supplied
state: on a well-formed building, if the infection map holds a coordinate
with positive `zombie_count` whose room is blocked, `step` raises an
assertion failure (one of the three propagation `assert` messages) and
returns no state. -/
theorem c10_blocked_seed_asserts (state : ZombieSimulationState)
    (coord : Int × Int) (attrs : List (String × Int)) (rm : Room)
    (hwf : wf_building state.building)
    (ha : dictLookup state.infected_coords coord = some attrs)
    (hz : 0 < attrsGet attrs ZOMBIE_COUNT 0)
    (hr : getRoom state coord.1 coord.2 = some rm)
    (hb : rm.blocked = true) :
    isAssertionFailure (step state 0) = true := by
  unfold step
  rw [if_neg (by simp)]
  unfold spread_infection
  have hwf2 : wf_building
      ({ state with turn := state.turn + 1 } : ZombieSimulationState).building :=
    hwf
  have ha2 : dictLookup
      ({ state with turn := state.turn + 1 } : ZombieSimulationState).infected_coords
      coord = some attrs := ha
  have hr2 : getRoom
      ({ state with turn := state.turn + 1 } : ZombieSimulationState)
      coord.1 coord.2 = some rm := hr
  have hkeys2 : ∀ c ∈
      ({ state with turn := state.turn + 1 } :
        ZombieSimulationState).infected_coords.map Prod.fst,
      (dictLookup
        ({ state with turn := state.turn + 1 } :
          ZombieSimulationState).infected_coords c).isSome :=
    fun c hc => (dictLookup_isSome_iff _ _).mpr hc
  have hc0m : coord ∈
      ({ state with turn := state.turn + 1 } :
        ZombieSimulationState).infected_coords.map Prod.fst :=
    (dictLookup_isSome_iff _ _).mp (by rw [ha2]; rfl)
  obtain ⟨msg, hcol, hmsg⟩ :=
    wf_collect_error hwf2 hkeys2 hc0m ha2 (by omega) hr2 hb
  rw [hcol]
  exact hmsg

/-- C10 witness: the 1×1 building whose only room `(0, 0)` is both infected
(count 1) and blocked: calling `step` raises an assertion failure. -/
theorem c10_witness :
    wf_building sampleBlockedSeed.building ∧
      isAssertionFailure (step sampleBlockedSeed 0) = true :=
  ⟨by decide,
    c10_blocked_seed_asserts sampleBlockedSeed (0, 0) [(ZOMBIE_COUNT, 1)]
      sampleBlockedSeedRoom (by decide) rfl (by decide) rfl rfl⟩

end Zombiotrack
